import Mathlib

set_option maxHeartbeats 1000000

/-!
Shallow embedding of the shard-splitting resharding core of this repository,
translated from `chain/chain/src/resharding/manager.rs`.  External data types
that the manager manipulates only through their interfaces (ShardUId,
CongestionInfo, ChunkExtra, ReceiptGroupsQueue, the epoch manager and the
store) are modelled from the specification, as noted on each definition.
-/

/-- Modelled from the spec: `ShardUId` (near_primitives, not in src/), the
versioned physical identifier of a shard: a layout version and a shard id. -/
structure ShardUId where
  version : Nat
  shard_id : Nat
deriving DecidableEq, Repr

/-- Modelled from the spec: `CongestionInfo` (near_primitives, not in src/),
aggregate buffered-receipt accounting per shard, with the fields the spec
names: buffered gas, buffered bytes, delayed gas and the allowed shard. -/
structure CongestionInfo where
  buffered_receipts_gas : Nat
  buffered_receipts_bytes : Nat
  delayed_receipts_gas : Nat
  allowed_shard : Nat
deriving DecidableEq, Repr

/-- Modelled from the spec: `remove_buffered_receipt_gas` (near_primitives, not
in src/) is a checked subtraction from the buffered gas counter; the manager
calls it under an `expect`, so an underflow aborts the attempt (`none`). -/
def CongestionInfo.remove_buffered_receipt_gas (ci : CongestionInfo) (gas : Nat) :
    Option CongestionInfo :=
  if gas ≤ ci.buffered_receipts_gas then
    some { ci with buffered_receipts_gas := ci.buffered_receipts_gas - gas }
  else
    none

/-- Modelled from the spec: `remove_receipt_bytes` (near_primitives, not in
src/) is a checked subtraction from the buffered bytes counter. -/
def CongestionInfo.remove_receipt_bytes (ci : CongestionInfo) (bytes : Nat) :
    Option CongestionInfo :=
  if bytes ≤ ci.buffered_receipts_bytes then
    some { ci with buffered_receipts_bytes := ci.buffered_receipts_bytes - bytes }
  else
    none

/-- Modelled from the spec: `set_allowed_shard` overwrites only the
`allowed_shard` field. -/
def CongestionInfo.set_allowed_shard (ci : CongestionInfo) (shard : Nat) :
    CongestionInfo :=
  { ci with allowed_shard := shard }

/-- Modelled from the spec: `finalize_allowed_shard` (near_primitives, not in
src/) sets `allowed_shard` to a deterministic rotation target computed from
`(own_shard, all_shards, seed)`: the seed selects a shard of the next layout
by rotation, defaulting to the shard itself when the layout is empty. -/
def CongestionInfo.finalize_allowed_shard (ci : CongestionInfo) (own_shard : Nat)
    (all_shards : List Nat) (seed : Nat) : CongestionInfo :=
  { ci with allowed_shard := all_shards.getD (seed % all_shards.length) own_shard }

/-- Modelled from the spec: `ReceiptGroupsQueue` (near_store, not in src/), the
per-destination-shard queue of buffered outgoing receipts, exposed to the
manager only through its `total_gas` (u128) and `total_size` (u64) totals. -/
structure ReceiptGroupsQueue where
  total_gas : Nat
  total_size : Nat
deriving DecidableEq, Repr

/-- `RetainMode` from near_store's trie resharding interface: which side of the
boundary account the child keeps. -/
inductive RetainMode
  | Left
  | Right
deriving DecidableEq, Repr

/-- The subtraction loop of `get_child_congestion_info` (manager.rs:343-362):
for every destination shard id of the pre-split layout, load that shard's
`ReceiptGroupsQueue` from the parent trie (`none` means no queue, the loop
`continue`s), check the u128 gas total fits in u64 (the source's
`try_into().expect`), then remove its gas and bytes from the congestion info.
Any failing `expect` is modelled as `none`. -/
def subtract_receipt_groups (shard_ids : List Nat)
    (receipt_groups : Nat → Option ReceiptGroupsQueue)
    (ci : CongestionInfo) : Option CongestionInfo :=
  match shard_ids with
  | [] => some ci
  | shard_id :: rest =>
    match receipt_groups shard_id with
    | none => subtract_receipt_groups rest receipt_groups ci
    | some rg =>
      if rg.total_gas < 2 ^ 64 then
        match ci.remove_buffered_receipt_gas rg.total_gas with
        | none => none
        | some ci1 =>
          match ci1.remove_receipt_bytes rg.total_size with
          | none => none
          | some ci2 => subtract_receipt_groups rest receipt_groups ci2
      else
        none

/-- `get_child_congestion_info` (manager.rs:320-375).  For the left child the
parent's congestion info is returned unchanged.  For the right child the
receipt-group totals of every destination shard of the pre-split layout are
subtracted, the result must have zero buffered gas (the source's `assert_eq`),
and it must agree with the congestion info bootstrapped from the child trie
(`bootstrap_congestion_info`, node_runtime, not in src/ — its result is taken
here as the argument `bootstrapped`) once the allowed shard is copied across;
the bootstrapped value is returned.  A firing assertion is modelled as
`none`. -/
def get_child_congestion_info (retain_mode : RetainMode) (shard_ids : List Nat)
    (receipt_groups : Nat → Option ReceiptGroupsQueue)
    (bootstrapped : CongestionInfo) (congestion_info : CongestionInfo) :
    Option CongestionInfo :=
  if retain_mode = RetainMode.Left then
    some congestion_info
  else
    match subtract_receipt_groups shard_ids receipt_groups congestion_info with
    | none => none
    | some smart_congestion_info =>
      if smart_congestion_info.buffered_receipts_gas = 0 then
        let smart2 := smart_congestion_info.set_allowed_shard bootstrapped.allowed_shard
        if bootstrapped = smart2 then some bootstrapped else none
      else
        none

/-- Modelled from the spec: `ChunkExtra` (near_primitives, not in src/) with
the essential fields the spec lists: state root, optional congestion info
(protocol-version dependent), gas used, balance burnt, validator proposals and
the outgoing receipts root. -/
structure ChunkExtra where
  state_root : Nat
  congestion_info : Option CongestionInfo
  gas_used : Nat
  balance_burnt : Nat
  validator_proposals : List Nat
  outgoing_receipts_root : Nat
deriving DecidableEq, Repr

/-- `get_child_chunk_extra` (manager.rs:275-318): clone the parent's
`ChunkExtra`, replace the state root with the child's new root and, when the
congestion-info field is present, replace it with the recomputed child
congestion info whose allowed shard is then finalized with the child's shard
id, the shard ids of the next layout and the child's shard index as the
congestion seed. -/
def get_child_chunk_extra (parent_chunk_extra : ChunkExtra) (new_state_root : Nat)
    (retain_mode : RetainMode) (shard_ids : List Nat)
    (receipt_groups : Nat → Option ReceiptGroupsQueue)
    (bootstrapped : CongestionInfo) (own_shard : Nat) (all_shards : List Nat)
    (congestion_seed : Nat) : Option ChunkExtra :=
  let child := { parent_chunk_extra with state_root := new_state_root }
  match child.congestion_info with
  | none => some child
  | some ci =>
    match get_child_congestion_info retain_mode shard_ids receipt_groups bootstrapped ci with
    | none => none
    | some ci2 =>
      let final_ci := ci2.finalize_allowed_shard own_shard all_shards congestion_seed
      some { child with congestion_info := some final_ci }

/-- Total gas held by the receipt-group queues of the given destination
shards (a destination with no queue holds zero). -/
def receipt_groups_gas (shard_ids : List Nat)
    (receipt_groups : Nat → Option ReceiptGroupsQueue) : Nat :=
  (shard_ids.map (fun sid =>
    match receipt_groups sid with
    | some rg => rg.total_gas
    | none => 0)).sum

/-- Total bytes held by the receipt-group queues of the given destination
shards. -/
def receipt_groups_size (shard_ids : List Nat)
    (receipt_groups : Nat → Option ReceiptGroupsQueue) : Nat :=
  (shard_ids.map (fun sid =>
    match receipt_groups sid with
    | some rg => rg.total_size
    | none => 0)).sum

/-- The split-shard event parameters (`ReshardingSplitShardParams` from
resharding/event_type.rs, not in src/; modelled from the spec's
SplitShardEvent): parent, the two children, the boundary account and the
block hash. -/
structure ReshardingSplitShardParams where
  parent_shard : ShardUId
  left_child_shard : ShardUId
  right_child_shard : ShardUId
  boundary_account : String
  block_hash : Nat
deriving DecidableEq, Repr

/-- `children_shards` of the split event: left child then right child. -/
def children_shards (event : ReshardingSplitShardParams) : List ShardUId :=
  [event.left_child_shard, event.right_child_shard]

/-- `ShardLayout` (near_primitives, not in src/; modelled from the spec): a
versioned account-to-shard mapping; the manager only distinguishes the
split-capable V2 variant, compares layouts for equality and reads shard ids,
so the payload is abstracted to a number. -/
inductive ShardLayout
  | V1 (data : Nat)
  | V2 (data : Nat)
deriving DecidableEq, Repr

/-- Whether a layout is of the split-capable V2 variant
(`matches!(next_shard_layout, ShardLayout::V2(_))` in manager.rs:93). -/
def ShardLayout.isV2 : ShardLayout → Bool
  | .V2 _ => true
  | _ => false

/-- The error kinds `start_resharding` can surface: `DBNotFoundErr` and
`Other` from near_chain_primitives, a storage error from the collaborators,
and a firing assertion or expect (which aborts the attempt). -/
inductive SplitError
  | DBNotFoundErr (msg : String)
  | Other (msg : String)
  | StorageError
  | AssertFailed
deriving DecidableEq, Repr

def memtrie_not_loaded_msg : String := "Memtrie not loaded"

def chunk_extra_not_found_msg : String := "CHUNK EXTRA"

/-- A durable write of the split, tagged by its column and payload. -/
inductive WriteOp
  | shardUidMapping (child : ShardUId) (parent : ShardUId)
  | chunkExtra (block_hash : Nat) (shard : ShardUId) (extra : ChunkExtra)
  | stateTransitionData (block_hash : Nat) (shard_id : Nat) (witness : Nat)
  | trieInsertions (shard : ShardUId) (changes : Nat)
deriving DecidableEq, Repr

/-- Observable steps of a split attempt, in the order they happen. -/
inductive TraceEvent
  | commitMappings (children : List ShardUId) (parent : ShardUId)
  | freezeMemTries (parent : ShardUId) (children : List ShardUId)
  | newTrieRecorder (child : ShardUId)
  | retainSplit (child : ShardUId) (mode : RetainMode)
  | commitBatch
  | flatStorageStart (event : ReshardingSplitShardParams) (layout : ShardLayout)
deriving DecidableEq, Repr

/-- Result of one invocation of the manager. -/
inductive SplitResult
  | ok
  | error (e : SplitError)
deriving DecidableEq, Repr

/-- Outcome of an invocation: the returned result, the writes that are durably
committed when it returns, and the trace of observable steps. -/
structure RunResult where
  result : SplitResult
  committed : List WriteOp
  trace : List TraceEvent
deriving Repr

/-- The environment a split attempt runs against: the store, the tries and the
epoch manager, abstracted to the answers the manager's calls receive.
`childStateRoot`, `childWitness` and `childTrieChanges` are the results of the
memtrie walk (`retain_split_shard`, `recorded_storage`,
`apply_memtrie_changes`), which this embedding treats as given data. -/
structure SplitEnv where
  freezeOk : Bool
  parentChunkExtra : Option ChunkExtra
  memLoaded : ShardUId → Bool
  updateOk : RetainMode → Bool
  childStateRoot : RetainMode → Nat
  childWitness : RetainMode → Nat
  childTrieChanges : RetainMode → Nat
  shardIds : List Nat
  receiptGroups : Nat → Option ReceiptGroupsQueue
  bootstrapped : ShardUId → CongestionInfo
  nextAllShards : List Nat
  shardIndex : ShardUId → Nat
  commitOk : Bool
  flatStorageOk : Bool
  blockHash : Nat

/-- Result of one child iteration of the loop in
`process_memtrie_resharding_storage_update`: on success, the writes queued
into the chain-store batch and those queued into the trie-store batch. -/
inductive ChildResult
  | ok (chainOps : List WriteOp) (trieOps : List WriteOp)
  | error (e : SplitError)
deriving DecidableEq, Repr

/-- Outcome of one child iteration: result plus the trace of its steps. -/
structure ChildOutcome where
  result : ChildResult
  trace : List TraceEvent
deriving Repr

/-- One iteration of the per-child loop (manager.rs:198-267): check the child
memtrie handle is loaded (else fail with the memtrie-not-loaded error), create
a fresh `TrieRecorder`, run the update and the retain walk, build the child
`ChunkExtra`, and queue the chunk extra, the state-transition record with the
witness, and the trie-node insertions into the two batch builders. -/
def process_child_memtrie (env : SplitEnv) (parent_chunk_extra : ChunkExtra)
    (block_hash : Nat) (child : ShardUId) (mode : RetainMode) : ChildOutcome :=
  if env.memLoaded child = false then
    ⟨.error (.Other memtrie_not_loaded_msg), []⟩
  else if env.updateOk mode = false then
    ⟨.error .StorageError, [.newTrieRecorder child]⟩
  else
    let new_state_root := env.childStateRoot mode
    match get_child_chunk_extra parent_chunk_extra new_state_root mode env.shardIds
        env.receiptGroups (env.bootstrapped child) child.shard_id env.nextAllShards
        (env.shardIndex child) with
    | none => ⟨.error .AssertFailed, [.newTrieRecorder child, .retainSplit child mode]⟩
    | some child_chunk_extra =>
      ⟨.ok
        [.chunkExtra block_hash child child_chunk_extra,
         .stateTransitionData block_hash child.shard_id (env.childWitness mode)]
        [.trieInsertions child (env.childTrieChanges mode)],
       [.newTrieRecorder child, .retainSplit child mode]⟩

/-- Result of `process_memtrie_resharding_storage_update`: on success the list
of writes it committed as one batch. -/
inductive MemtrieResult
  | ok (main : List WriteOp)
  | error (e : SplitError)
deriving DecidableEq, Repr

/-- Outcome of `process_memtrie_resharding_storage_update`. -/
structure MemtrieOutcome where
  result : MemtrieResult
  trace : List TraceEvent
deriving Repr

/-- `get_chunk_extra` (manager.rs:378-393): read the parent's `ChunkExtra`
from `DBCol::ChunkExtra`; absence becomes a `DBNotFoundErr`. -/
def get_chunk_extra (stored : Option ChunkExtra) : Except SplitError ChunkExtra :=
  match stored with
  | none => .error (.DBNotFoundErr chunk_extra_not_found_msg)
  | some ce => .ok ce

/-- `process_memtrie_resharding_storage_update` (manager.rs:171-273): freeze
the parent memtrie, read the parent's `ChunkExtra`, run the per-child loop for
the left child then the right child, merge the trie-store batch into the
chain-store batch and commit the whole batch at once.  An error at any point
abandons the batch: nothing of it is committed. -/
def process_memtrie_resharding_storage_update (env : SplitEnv)
    (parent_shard_uid : ShardUId) (event : ReshardingSplitShardParams) :
    MemtrieOutcome :=
  if env.freezeOk = false then
    ⟨.error .StorageError, []⟩
  else
    let ftrace := [TraceEvent.freezeMemTries parent_shard_uid (children_shards event)]
    match get_chunk_extra env.parentChunkExtra with
    | .error e => ⟨.error e, ftrace⟩
    | .ok parent_chunk_extra =>
      match process_child_memtrie env parent_chunk_extra env.blockHash
          event.left_child_shard RetainMode.Left with
      | ⟨.error e, tl⟩ => ⟨.error e, ftrace ++ tl⟩
      | ⟨.ok chainL trieL, tl⟩ =>
        match process_child_memtrie env parent_chunk_extra env.blockHash
            event.right_child_shard RetainMode.Right with
        | ⟨.error e, tr⟩ => ⟨.error e, ftrace ++ tl ++ tr⟩
        | ⟨.ok chainR trieR, tr⟩ =>
          if env.commitOk then
            ⟨.ok (chainL ++ chainR ++ trieL ++ trieR),
             ftrace ++ tl ++ tr ++ [TraceEvent.commitBatch]⟩
          else
            ⟨.error .StorageError, ftrace ++ tl ++ tr⟩

/-- The content of the store update built by `set_state_shard_uid_mapping`
(manager.rs:160-165): one child-to-parent mapping write per child shard.
Staging these writes is infallible; the commit of the store update
(manager.rs:166) is fallible and is modelled by `commit_shard_uid_mapping`. -/
def set_state_shard_uid_mapping (event : ReshardingSplitShardParams) :
    List WriteOp :=
  (children_shards event).map (fun child => WriteOp.shardUidMapping child event.parent_shard)

/-- The commit of `set_state_shard_uid_mapping`'s own store update
(manager.rs:166): an `io::Result` propagated by `split_shard` at
manager.rs:134.  When the commit succeeds the mapping writes become durable;
when it fails nothing of them is durable and the attempt aborts. -/
def commit_shard_uid_mapping (commitOk : Bool)
    (event : ReshardingSplitShardParams) : Except SplitError (List WriteOp) :=
  if commitOk then
    .ok (set_state_shard_uid_mapping event)
  else
    .error .StorageError

/-- `split_shard` (manager.rs:118-152): skip (returning success) when the
given shard uid is not the event's parent; otherwise commit the shard-uid
mappings, run the memtrie storage update (whose batch commits inside it), and
finally hand the same event to the flat-storage resharder. -/
def split_shard (env : SplitEnv) (shard_uid : ShardUId)
    (event : ReshardingSplitShardParams) (next_shard_layout : ShardLayout) :
    RunResult :=
  if event.parent_shard ≠ shard_uid then
    ⟨.ok, [], []⟩
  else
    let mappings := set_state_shard_uid_mapping event
    let trace0 := [TraceEvent.commitMappings (children_shards event) event.parent_shard]
    match process_memtrie_resharding_storage_update env shard_uid event with
    | ⟨.error e, t⟩ => ⟨.error e, mappings, trace0 ++ t⟩
    | ⟨.ok main, t⟩ =>
      let trace1 := trace0 ++ t ++ [TraceEvent.flatStorageStart event next_shard_layout]
      if env.flatStorageOk then
        ⟨.ok, mappings ++ main, trace1⟩
      else
        ⟨.error .StorageError, mappings ++ main, trace1⟩

/-- `split_shard` (manager.rs:118-152) with the fallibility of the mapping
commit made explicit: after the parent-shard guard, the mapping store update
is committed (manager.rs:134, 166) and its `io::Result` failure aborts the
attempt with nothing durable; on success the attempt continues with the
memtrie storage update and the flat-storage handoff as in `split_shard`. -/
def split_shard_with_mapping_commit (mappingCommitOk : Bool) (env : SplitEnv)
    (shard_uid : ShardUId) (event : ReshardingSplitShardParams)
    (next_shard_layout : ShardLayout) : RunResult :=
  if event.parent_shard ≠ shard_uid then
    ⟨.ok, [], []⟩
  else
    match commit_shard_uid_mapping mappingCommitOk event with
    | .error e => ⟨.error e, [], []⟩
    | .ok _ => split_shard env shard_uid event next_shard_layout

/-- Result of `ReshardingEventType::from_shard_layout`: an error, no derivable
event, or a split-shard event. -/
inductive EventResult
  | err (msg : String)
  | noEvent
  | splitShardEvent (event : ReshardingSplitShardParams)
deriving DecidableEq, Repr

/-- The answers of the epoch manager consulted by the gate of
`start_resharding` (manager.rs:80-99). -/
structure GateEnv where
  is_next_block_epoch_start : Bool
  shard_layout : ShardLayout
  next_shard_layout : ShardLayout
  resharding_event : EventResult
deriving Repr

/-- `start_resharding` (manager.rs:66-116): the gate.  Skip with success when
the next block is not an epoch start or the layout does not change, when the
next layout is not V2, or when no resharding event can be derived; propagate
an event-derivation error; otherwise run `split_shard`. -/
def start_resharding (genv : GateEnv) (env : SplitEnv) (shard_uid : ShardUId) :
    RunResult :=
  if genv.is_next_block_epoch_start = false then
    ⟨.ok, [], []⟩
  else if genv.shard_layout = genv.next_shard_layout then
    ⟨.ok, [], []⟩
  else if ShardLayout.isV2 genv.next_shard_layout = false then
    ⟨.ok, [], []⟩
  else
    match genv.resharding_event with
    | .err msg => ⟨.error (.Other msg), [], []⟩
    | .noEvent => ⟨.ok, [], []⟩
    | .splitShardEvent event => split_shard env shard_uid event genv.next_shard_layout

/-- The five gate conditions of the claim: any one failing makes the call a
no-op returning success. -/
def gate_fails (genv : GateEnv) (shard_uid : ShardUId) : Prop :=
  genv.is_next_block_epoch_start = false
  ∨ genv.shard_layout = genv.next_shard_layout
  ∨ ShardLayout.isV2 genv.next_shard_layout = false
  ∨ genv.resharding_event = EventResult.noEvent
  ∨ (∃ event, genv.resharding_event = EventResult.splitShardEvent event
      ∧ event.parent_shard ≠ shard_uid)

/-- The gate passes and the event names this shard as parent. -/
def gate_passes (genv : GateEnv) (shard_uid : ShardUId)
    (event : ReshardingSplitShardParams) : Prop :=
  genv.is_next_block_epoch_start = true
  ∧ genv.shard_layout ≠ genv.next_shard_layout
  ∧ ShardLayout.isV2 genv.next_shard_layout = true
  ∧ genv.resharding_event = EventResult.splitShardEvent event
  ∧ event.parent_shard = shard_uid

/-- **C4.** In the right-child congestion recomputation, for every valid
parent state — one in which the receipt-group queues of the pre-split layout's
destination shards account exactly for the parent's buffered gas, account for
no more than its buffered bytes, and each queue's u128 gas total fits in u64 —
the subtraction loop succeeds (so no intermediate
`remove_buffered_receipt_gas` or `remove_receipt_bytes` call underflows) and
the remaining `buffered_receipts_gas` is exactly 0, so the source's assertion
never fires. -/
theorem subtract_receipt_groups_drains_buffered_gas (shard_ids : List Nat)
    (receipt_groups : Nat → Option ReceiptGroupsQueue) (ci : CongestionInfo)
    (hgas : receipt_groups_gas shard_ids receipt_groups = ci.buffered_receipts_gas)
    (hbytes : receipt_groups_size shard_ids receipt_groups ≤ ci.buffered_receipts_bytes)
    (hfit : ∀ sid ∈ shard_ids, ∀ rg, receipt_groups sid = some rg →
      rg.total_gas < 2 ^ 64) :
    ∃ ci2, subtract_receipt_groups shard_ids receipt_groups ci = some ci2
      ∧ ci2.buffered_receipts_gas = 0 := by
  induction shard_ids generalizing ci with
  | nil =>
    refine ⟨ci, rfl, ?_⟩
    simpa [receipt_groups_gas] using hgas.symm
  | cons sid rest ih =>
    rcases hq : receipt_groups sid with _ | rg
    · simp only [subtract_receipt_groups, hq]
      refine ih ci ?_ ?_ ?_
      · simpa [receipt_groups_gas, hq] using hgas
      · simpa [receipt_groups_size, hq] using hbytes
      · intro s hs rg2 h2
        exact hfit s (List.mem_cons_of_mem _ hs) rg2 h2
    · have hfit0 : rg.total_gas < 2 ^ 64 :=
        hfit sid (List.mem_cons_self _ _) rg hq
      have hgas0 : rg.total_gas + receipt_groups_gas rest receipt_groups
          = ci.buffered_receipts_gas := by
        simpa [receipt_groups_gas, hq] using hgas
      have hbytes0 : rg.total_size + receipt_groups_size rest receipt_groups
          ≤ ci.buffered_receipts_bytes := by
        simpa [receipt_groups_size, hq] using hbytes
      have h1 : rg.total_gas ≤ ci.buffered_receipts_gas := by omega
      have h2 : rg.total_size ≤ ci.buffered_receipts_bytes := by omega
      simp only [subtract_receipt_groups, hq, hfit0, if_true,
        CongestionInfo.remove_buffered_receipt_gas,
        CongestionInfo.remove_receipt_bytes, h1, h2, if_pos]
      refine ih _ ?_ ?_ ?_
      · simp only []
        omega
      · simp only []
        omega
      · intro s hs rg2 hq2
        exact hfit s (List.mem_cons_of_mem _ hs) rg2 hq2

/-- **C10.** A destination shard of the pre-split layout whose
`ReceiptGroupsQueue` is absent from the parent trie (load yields `none`) is
skipped without error wherever it occurs in the iteration, and contributes no
subtraction to the buffered gas or byte counters. -/
theorem subtract_receipt_groups_skips_missing_queue (pre post : List Nat)
    (sid : Nat) (receipt_groups : Nat → Option ReceiptGroupsQueue)
    (ci : CongestionInfo) (hnone : receipt_groups sid = none) :
    subtract_receipt_groups (pre ++ sid :: post) receipt_groups ci
      = subtract_receipt_groups (pre ++ post) receipt_groups ci := by
  induction pre generalizing ci with
  | nil =>
    simp only [List.nil_append, subtract_receipt_groups, hnone]
  | cons s rest ih =>
    simp only [List.cons_append, subtract_receipt_groups]
    rcases hq : receipt_groups s with _ | rg
    · exact ih ci
    · by_cases hfit : rg.total_gas < 2 ^ 64
      · simp only [hfit, if_true]
        rcases h1 : ci.remove_buffered_receipt_gas rg.total_gas with _ | ci1
        · rfl
        · rcases h2 : ci1.remove_receipt_bytes rg.total_size with _ | ci2
          · simp only [h2]
          · simp only [h2]
            exact ih ci2
      · simp only [hfit, if_false]

/-- The spec's cross-check contract for `bootstrap_congestion_info`: the
bootstrapped congestion info of the right child agrees with the
subtraction-derived one on every field except `allowed_shard`. -/
def agrees_except_allowed_shard (a b : CongestionInfo) : Prop :=
  a.buffered_receipts_gas = b.buffered_receipts_gas
  ∧ a.buffered_receipts_bytes = b.buffered_receipts_bytes
  ∧ a.delayed_receipts_gas = b.delayed_receipts_gas

/-- **C5.** For the right child, whenever the subtraction of the
receipt-group totals from the parent congestion info succeeds with zero
buffered gas and the bootstrapped congestion info agrees with it on every
field except `allowed_shard`, then after copying `allowed_shard` across the
two are equal — the source's `assert_eq` never fires — and
`get_child_congestion_info` returns the bootstrapped value. -/
theorem get_child_congestion_info_right_returns_bootstrapped
    (shard_ids : List Nat) (receipt_groups : Nat → Option ReceiptGroupsQueue)
    (bootstrapped ci smart : CongestionInfo)
    (hsub : subtract_receipt_groups shard_ids receipt_groups ci = some smart)
    (hzero : smart.buffered_receipts_gas = 0)
    (hagree : agrees_except_allowed_shard bootstrapped smart) :
    get_child_congestion_info RetainMode.Right shard_ids receipt_groups
      bootstrapped ci = some bootstrapped := by
  have hb : bootstrapped = smart.set_allowed_shard bootstrapped.allowed_shard := by
    rcases hagree with ⟨ha1, ha2, ha3⟩
    cases bootstrapped
    cases smart
    simp_all [CongestionInfo.set_allowed_shard]
  simp only [get_child_congestion_info, reduceCtorEq, if_false, hsub, hzero,
    if_true, ← hb, if_pos]

/-- **C7.** The child `ChunkExtra` produced by `get_child_chunk_extra` is the
parent's `ChunkExtra` in which only the state root and (when the field is
present) the congestion info are replaced; `gas_used`, `balance_burnt`,
`validator_proposals` and `outgoing_receipts_root` are identical to the
parent's. -/
theorem get_child_chunk_extra_frame (parent_chunk_extra : ChunkExtra)
    (new_state_root : Nat) (retain_mode : RetainMode) (shard_ids : List Nat)
    (receipt_groups : Nat → Option ReceiptGroupsQueue)
    (bootstrapped : CongestionInfo) (own_shard : Nat) (all_shards : List Nat)
    (congestion_seed : Nat) (child : ChunkExtra)
    (hchild : get_child_chunk_extra parent_chunk_extra new_state_root retain_mode
      shard_ids receipt_groups bootstrapped own_shard all_shards congestion_seed
      = some child) :
    child.state_root = new_state_root
    ∧ child.gas_used = parent_chunk_extra.gas_used
    ∧ child.balance_burnt = parent_chunk_extra.balance_burnt
    ∧ child.validator_proposals = parent_chunk_extra.validator_proposals
    ∧ child.outgoing_receipts_root = parent_chunk_extra.outgoing_receipts_root := by
  unfold get_child_chunk_extra at hchild
  rcases hci : parent_chunk_extra.congestion_info with _ | ci
  · simp only [hci] at hchild
    cases hchild
    simp
  · simp only [hci] at hchild
    rcases hgc : get_child_congestion_info retain_mode shard_ids receipt_groups
        bootstrapped ci with _ | ci2
    · rw [hgc] at hchild
      exact Option.noConfusion hchild
    · simp only [hgc] at hchild
      cases hchild
      simp

/-- Concrete parent congestion info for the left-child scenario of the spec:
buffered gas 1000, buffered bytes 200, allowed shard 5. -/
def c6_parent_congestion : CongestionInfo :=
  { buffered_receipts_gas := 1000
    buffered_receipts_bytes := 200
    delayed_receipts_gas := 0
    allowed_shard := 5 }

/-- Concrete parent `ChunkExtra` carrying `c6_parent_congestion`. -/
def c6_parent_chunk_extra : ChunkExtra :=
  { state_root := 1
    congestion_info := some c6_parent_congestion
    gas_used := 7
    balance_burnt := 3
    validator_proposals := []
    outgoing_receipts_root := 9 }

/-- The left child's `ChunkExtra` built from `c6_parent_chunk_extra` with new
state root 2, next layout shards `[0, 1]`, own shard 0 and congestion seed
0. -/
def c6_left_child_chunk_extra : Option ChunkExtra :=
  get_child_chunk_extra c6_parent_chunk_extra 2 RetainMode.Left []
    (fun _ => none) c6_parent_congestion 0 [0, 1] 0

/-- **C6, counterexample.** On a concrete parent whose congestion info has
`allowed_shard = 5`, the left-child `ChunkExtra` is produced successfully but
its congestion info is NOT identical to the parent's: `finalize_allowed_shard`
rewrites `allowed_shard` to 0, so the claim that the left-child `ChunkExtra`
congestion info is identical to the parent's on every field is false. -/
theorem c6_left_child_congestion_differs :
    Option.map ChunkExtra.congestion_info c6_left_child_chunk_extra
      = some (some { c6_parent_congestion with allowed_shard := 0 })
    ∧ Option.map ChunkExtra.congestion_info c6_left_child_chunk_extra
      ≠ some c6_parent_chunk_extra.congestion_info := by
  constructor
  · rfl
  · decide

/-- **C6, amended.** For the left child, `get_child_congestion_info` returns
the parent's congestion info unchanged on every field; in the resulting
left-child `ChunkExtra` the congestion info is identical to the parent's on
every field except `allowed_shard`, which is re-finalized for the child. -/
theorem left_child_congestion_info_unchanged (parent_chunk_extra : ChunkExtra)
    (new_state_root : Nat) (shard_ids : List Nat)
    (receipt_groups : Nat → Option ReceiptGroupsQueue)
    (bootstrapped : CongestionInfo) (own_shard : Nat) (all_shards : List Nat)
    (congestion_seed : Nat) (ci : CongestionInfo) (child : ChunkExtra)
    (hci : parent_chunk_extra.congestion_info = some ci)
    (hchild : get_child_chunk_extra parent_chunk_extra new_state_root
      RetainMode.Left shard_ids receipt_groups bootstrapped own_shard all_shards
      congestion_seed = some child) :
    get_child_congestion_info RetainMode.Left shard_ids receipt_groups
      bootstrapped ci = some ci
    ∧ ∃ ci2, child.congestion_info = some ci2
      ∧ ci2.buffered_receipts_gas = ci.buffered_receipts_gas
      ∧ ci2.buffered_receipts_bytes = ci.buffered_receipts_bytes
      ∧ ci2.delayed_receipts_gas = ci.delayed_receipts_gas := by
  refine ⟨by simp [get_child_congestion_info], ?_⟩
  unfold get_child_chunk_extra at hchild
  simp only [hci, get_child_congestion_info, if_pos] at hchild
  cases hchild
  exact ⟨_, rfl, rfl, rfl, rfl⟩

/-- **C3.** Whenever any gate condition fails — next block not an epoch
start, next layout equal to the current one, next layout not of the
split-capable V2 variant, no split event derivable, or the given shard uid not
the event's parent — `start_resharding` returns success and performs no
writes and no state change. -/
theorem start_resharding_gate_skip (genv : GateEnv) (env : SplitEnv)
    (shard_uid : ShardUId) (h : gate_fails genv shard_uid) :
    start_resharding genv env shard_uid = ⟨SplitResult.ok, [], []⟩ := by
  unfold start_resharding
  split_ifs with h1 h2 h3
  · rfl
  · rfl
  · rfl
  · rcases h with h | h | h | h | ⟨event, hev, hne⟩
    · exact absurd h h1
    · exact absurd h h2
    · exact absurd h h3
    · rw [h]
    · rw [hev]
      simp [split_shard, hne]

/-- Gate environment whose next block is not an epoch start. -/
def closed_gate : GateEnv :=
  { is_next_block_epoch_start := false
    shard_layout := ShardLayout.V1 0
    next_shard_layout := ShardLayout.V2 1
    resharding_event := EventResult.noEvent }

/-- A split environment with every collaborator healthy; used to instantiate
the theorems on concrete runs. -/
def parent_uid : ShardUId := ⟨3, 0⟩

def left_uid : ShardUId := ⟨4, 0⟩

def right_uid : ShardUId := ⟨4, 1⟩

def split_event : ReshardingSplitShardParams :=
  { parent_shard := parent_uid
    left_child_shard := left_uid
    right_child_shard := right_uid
    boundary_account := "m"
    block_hash := 11 }

def passing_gate : GateEnv :=
  { is_next_block_epoch_start := true
    shard_layout := ShardLayout.V1 0
    next_shard_layout := ShardLayout.V2 1
    resharding_event := EventResult.splitShardEvent split_event }

def base_chunk_extra : ChunkExtra :=
  { state_root := 1
    congestion_info := none
    gas_used := 7
    balance_burnt := 3
    validator_proposals := []
    outgoing_receipts_root := 9 }

def zero_congestion : CongestionInfo :=
  { buffered_receipts_gas := 0
    buffered_receipts_bytes := 0
    delayed_receipts_gas := 0
    allowed_shard := 0 }

def healthy_env : SplitEnv :=
  { freezeOk := true
    parentChunkExtra := some base_chunk_extra
    memLoaded := fun _ => true
    updateOk := fun _ => true
    childStateRoot := fun _ => 0
    childWitness := fun _ => 0
    childTrieChanges := fun _ => 0
    shardIds := []
    receiptGroups := fun _ => none
    bootstrapped := fun _ => zero_congestion
    nextAllShards := [0, 1]
    shardIndex := fun _ => 0
    commitOk := true
    flatStorageOk := true
    blockHash := 11 }

def no_chunk_extra_env : SplitEnv :=
  { healthy_env with parentChunkExtra := none }

def memtrie_unloaded_env : SplitEnv :=
  { healthy_env with memLoaded := fun _ => false }

/-- Witness for the gate-skip theorem at a concrete closed gate. -/
theorem start_resharding_gate_skip_witness :
    start_resharding closed_gate healthy_env parent_uid = ⟨SplitResult.ok, [], []⟩ :=
  start_resharding_gate_skip closed_gate healthy_env parent_uid (Or.inl rfl)

/-- When every gate condition holds, `start_resharding` runs `split_shard` on
the derived event and the next layout. -/
theorem start_resharding_gate_pass (genv : GateEnv) (env : SplitEnv)
    (shard_uid : ShardUId) (event : ReshardingSplitShardParams)
    (hg : gate_passes genv shard_uid event) :
    start_resharding genv env shard_uid
      = split_shard env shard_uid event genv.next_shard_layout := by
  rcases hg with ⟨h1, h2, h3, h4, _⟩
  unfold start_resharding
  rw [h1, h4]
  simp [h2, h3]

/-- Shape of a successful child iteration: when the child memtrie handle is
loaded, the update succeeds and the child `ChunkExtra` is built, the iteration
queues the chunk extra, the state-transition record and the trie insertions,
and its trace is a fresh recorder followed by the retain walk. -/
theorem process_child_memtrie_ok_shape (env : SplitEnv) (pce : ChunkExtra)
    (bh : Nat) (child : ShardUId) (mode : RetainMode)
    (hmem : env.memLoaded child = true) (hupd : env.updateOk mode = true)
    (ce : ChunkExtra)
    (hce : get_child_chunk_extra pce (env.childStateRoot mode) mode env.shardIds
      env.receiptGroups (env.bootstrapped child) child.shard_id env.nextAllShards
      (env.shardIndex child) = some ce) :
    process_child_memtrie env pce bh child mode =
      ⟨ChildResult.ok
        [WriteOp.chunkExtra bh child ce,
         WriteOp.stateTransitionData bh child.shard_id (env.childWitness mode)]
        [WriteOp.trieInsertions child (env.childTrieChanges mode)],
       [TraceEvent.newTrieRecorder child, TraceEvent.retainSplit child mode]⟩ := by
  simp [process_child_memtrie, hmem, hupd, hce]

/-- **C1, counterexample.** A concrete invocation in which the gate passes
and the attempt fails before the main batch commit (the parent `ChunkExtra`
is absent) nevertheless leaves the two child-to-parent shard-uid mappings
durably committed: the writes of the split are not one atomic batch. -/
theorem c1_mappings_survive_failed_attempt :
    (start_resharding passing_gate no_chunk_extra_env parent_uid).result
      = SplitResult.error (SplitError.DBNotFoundErr chunk_extra_not_found_msg)
    ∧ (start_resharding passing_gate no_chunk_extra_env parent_uid).committed
      = [WriteOp.shardUidMapping left_uid parent_uid,
         WriteOp.shardUidMapping right_uid parent_uid] := by
  constructor
  · rfl
  · rfl

/-- Case analysis of the attempt after a successful mapping commit: every
failing run of the remainder leaves exactly the mapping writes durable, and
every run whose memtrie batch commits leaves the mappings plus the whole main
batch durable. -/
theorem split_shard_after_mapping_commit_cases (env : SplitEnv)
    (shard_uid : ShardUId) (event : ReshardingSplitShardParams)
    (layout : ShardLayout) (h : event.parent_shard = shard_uid) :
    ((split_shard env shard_uid event layout).committed
        = set_state_shard_uid_mapping event
      ∧ ∃ e, (split_shard env shard_uid event layout).result = SplitResult.error e)
    ∨ (∃ main,
        (process_memtrie_resharding_storage_update env shard_uid event).result
          = MemtrieResult.ok main
        ∧ (split_shard env shard_uid event layout).committed
          = set_state_shard_uid_mapping event ++ main
        ∧ ((split_shard env shard_uid event layout).result = SplitResult.ok
            ↔ env.flatStorageOk = true)) := by
  unfold split_shard
  rw [if_neg (by simp [h])]
  rcases ho : process_memtrie_resharding_storage_update env shard_uid event with ⟨r, t⟩
  cases r with
  | error e =>
    exact Or.inl ⟨rfl, e, rfl⟩
  | ok main =>
    refine Or.inr ⟨main, rfl, ?_, ?_⟩
    · by_cases hf : env.flatStorageOk = true <;> simp [hf]
    · by_cases hf : env.flatStorageOk = true <;> simp [hf]

/-- **C1, amended.** Within one attempt whose gate passes, the writes form
two atomic batches, not one: the child-to-parent shard-uid mappings are
committed first in a store update of their own, and the child `ChunkExtra`s,
the state-transition records and the inserted trie nodes are committed
together later as one batch.  If the mapping commit itself fails, nothing is
durable; if the attempt fails after the mapping commit and before the main
commit, exactly the mappings are durable; and on a committed main batch the
mappings plus the whole main batch are durable. -/
theorem split_shard_commit_granularity (mappingCommitOk : Bool)
    (env : SplitEnv) (shard_uid : ShardUId)
    (event : ReshardingSplitShardParams) (layout : ShardLayout)
    (h : event.parent_shard = shard_uid) :
    (mappingCommitOk = false
      ∧ (split_shard_with_mapping_commit mappingCommitOk env shard_uid event
          layout).committed = []
      ∧ ∃ e, (split_shard_with_mapping_commit mappingCommitOk env shard_uid event
          layout).result = SplitResult.error e)
    ∨ (mappingCommitOk = true
      ∧ (split_shard_with_mapping_commit mappingCommitOk env shard_uid event
          layout).committed = set_state_shard_uid_mapping event
      ∧ ∃ e, (split_shard_with_mapping_commit mappingCommitOk env shard_uid event
          layout).result = SplitResult.error e)
    ∨ (mappingCommitOk = true
      ∧ ∃ main,
        (process_memtrie_resharding_storage_update env shard_uid event).result
          = MemtrieResult.ok main
        ∧ (split_shard_with_mapping_commit mappingCommitOk env shard_uid event
            layout).committed = set_state_shard_uid_mapping event ++ main
        ∧ ((split_shard_with_mapping_commit mappingCommitOk env shard_uid event
            layout).result = SplitResult.ok
          ↔ env.flatStorageOk = true)) := by
  cases mappingCommitOk with
  | false =>
    refine Or.inl ⟨rfl, ?_, SplitError.StorageError, ?_⟩
    · simp [split_shard_with_mapping_commit, commit_shard_uid_mapping, h]
    · simp [split_shard_with_mapping_commit, commit_shard_uid_mapping, h]
  | true =>
    have heq : split_shard_with_mapping_commit true env shard_uid event layout
        = split_shard env shard_uid event layout := by
      simp [split_shard_with_mapping_commit, commit_shard_uid_mapping, h]
    rw [heq]
    rcases split_shard_after_mapping_commit_cases env shard_uid event layout h with
      ⟨hc, e, hr⟩ | ⟨main, hm, hc, hiff⟩
    · exact Or.inr (Or.inl ⟨rfl, hc, e, hr⟩)
    · exact Or.inr (Or.inr ⟨rfl, main, hm, hc, hiff⟩)

/-- Witness for the commit-granularity theorem on a concrete healthy run with
a succeeding mapping commit. -/
theorem split_shard_commit_granularity_witness :
    ((true : Bool) = false
      ∧ (split_shard_with_mapping_commit true healthy_env parent_uid split_event
          (ShardLayout.V2 1)).committed = []
      ∧ ∃ e, (split_shard_with_mapping_commit true healthy_env parent_uid
          split_event (ShardLayout.V2 1)).result = SplitResult.error e)
    ∨ ((true : Bool) = true
      ∧ (split_shard_with_mapping_commit true healthy_env parent_uid split_event
          (ShardLayout.V2 1)).committed = set_state_shard_uid_mapping split_event
      ∧ ∃ e, (split_shard_with_mapping_commit true healthy_env parent_uid
          split_event (ShardLayout.V2 1)).result = SplitResult.error e)
    ∨ ((true : Bool) = true
      ∧ ∃ main,
        (process_memtrie_resharding_storage_update healthy_env parent_uid
            split_event).result = MemtrieResult.ok main
        ∧ (split_shard_with_mapping_commit true healthy_env parent_uid
            split_event (ShardLayout.V2 1)).committed
          = set_state_shard_uid_mapping split_event ++ main
        ∧ ((split_shard_with_mapping_commit true healthy_env parent_uid
            split_event (ShardLayout.V2 1)).result = SplitResult.ok
          ↔ healthy_env.flatStorageOk = true)) :=
  split_shard_commit_granularity true healthy_env parent_uid split_event
    (ShardLayout.V2 1) rfl

/-- **C2, counterexample.** A concrete invocation whose gate passes but whose
memtries are not loaded fails with the memtrie-not-loaded error, yet writes
HAVE been made: the shard-uid mapping column already holds the two child
mappings, refuting the claim that no write to any column has been made. -/
theorem c2_memtrie_missing_still_writes_mappings :
    (start_resharding passing_gate memtrie_unloaded_env parent_uid).result
      = SplitResult.error (SplitError.Other memtrie_not_loaded_msg)
    ∧ (start_resharding passing_gate memtrie_unloaded_env parent_uid).committed ≠ [] := by
  constructor
  · rfl
  · decide

/-- **C2, amended.** If the memtries are not resident when `start_resharding`
is invoked and the gate passes, the call fails with the memtrie-not-loaded
error; at that point the child-to-parent shard-uid mappings have already been
committed, and no chunk-extra, state-transition or trie-node write has been
made. -/
theorem memtrie_not_loaded_fails_after_mapping_commit (genv : GateEnv)
    (env : SplitEnv) (shard_uid : ShardUId) (event : ReshardingSplitShardParams)
    (hg : gate_passes genv shard_uid event)
    (hfreeze : env.freezeOk = true)
    (pce : ChunkExtra) (hce : env.parentChunkExtra = some pce)
    (hmem : env.memLoaded event.left_child_shard = false) :
    (start_resharding genv env shard_uid).result
      = SplitResult.error (SplitError.Other memtrie_not_loaded_msg)
    ∧ (start_resharding genv env shard_uid).committed
      = set_state_shard_uid_mapping event := by
  have h5 := hg.2.2.2.2
  have hpm : process_memtrie_resharding_storage_update env shard_uid event
      = ⟨MemtrieResult.error (SplitError.Other memtrie_not_loaded_msg),
         [TraceEvent.freezeMemTries shard_uid (children_shards event)]⟩ := by
    unfold process_memtrie_resharding_storage_update
    rw [hfreeze, hce]
    simp [get_chunk_extra, process_child_memtrie, hmem]
  rw [start_resharding_gate_pass genv env shard_uid event hg]
  unfold split_shard
  rw [if_neg (by simp [h5]), hpm]
  exact ⟨rfl, rfl⟩

/-- Witness for the amended memtrie-not-loaded theorem on a concrete run. -/
theorem memtrie_not_loaded_fails_after_mapping_commit_witness :
    (start_resharding passing_gate memtrie_unloaded_env parent_uid).result
      = SplitResult.error (SplitError.Other memtrie_not_loaded_msg)
    ∧ (start_resharding passing_gate memtrie_unloaded_env parent_uid).committed
      = set_state_shard_uid_mapping split_event :=
  memtrie_not_loaded_fails_after_mapping_commit passing_gate memtrie_unloaded_env
    parent_uid split_event ⟨rfl, by decide, rfl, rfl, rfl⟩ rfl base_chunk_extra rfl rfl

/-- **C9.** When the parent's `ChunkExtra` for the block is absent from
`DBCol::ChunkExtra` and the gate passes, `start_resharding` fails with a
`DBNotFoundErr`; the failure happens after the shard-uid mappings are
committed and the parent memtrie frozen, and before any per-child work: the
trace ends at the freeze, with no recorder, retain, commit or flat-storage
step. -/
theorem chunk_extra_missing_fails_before_child_work (genv : GateEnv)
    (env : SplitEnv) (shard_uid : ShardUId) (event : ReshardingSplitShardParams)
    (hg : gate_passes genv shard_uid event)
    (hfreeze : env.freezeOk = true)
    (hce : env.parentChunkExtra = none) :
    (start_resharding genv env shard_uid).result
      = SplitResult.error (SplitError.DBNotFoundErr chunk_extra_not_found_msg)
    ∧ (start_resharding genv env shard_uid).committed
      = set_state_shard_uid_mapping event
    ∧ (start_resharding genv env shard_uid).trace
      = [TraceEvent.commitMappings (children_shards event) event.parent_shard,
         TraceEvent.freezeMemTries shard_uid (children_shards event)] := by
  have h5 := hg.2.2.2.2
  have hpm : process_memtrie_resharding_storage_update env shard_uid event
      = ⟨MemtrieResult.error (SplitError.DBNotFoundErr chunk_extra_not_found_msg),
         [TraceEvent.freezeMemTries shard_uid (children_shards event)]⟩ := by
    unfold process_memtrie_resharding_storage_update
    rw [hfreeze, hce]
    simp [get_chunk_extra]
  rw [start_resharding_gate_pass genv env shard_uid event hg]
  unfold split_shard
  rw [if_neg (by simp [h5]), hpm]
  exact ⟨rfl, rfl, rfl⟩

/-- Witness for the missing-chunk-extra theorem on a concrete run. -/
theorem chunk_extra_missing_fails_before_child_work_witness :
    (start_resharding passing_gate no_chunk_extra_env parent_uid).result
      = SplitResult.error (SplitError.DBNotFoundErr chunk_extra_not_found_msg)
    ∧ (start_resharding passing_gate no_chunk_extra_env parent_uid).committed
      = set_state_shard_uid_mapping split_event
    ∧ (start_resharding passing_gate no_chunk_extra_env parent_uid).trace
      = [TraceEvent.commitMappings (children_shards split_event)
           split_event.parent_shard,
         TraceEvent.freezeMemTries parent_uid (children_shards split_event)] :=
  chunk_extra_missing_fails_before_child_work passing_gate no_chunk_extra_env
    parent_uid split_event ⟨rfl, by decide, rfl, rfl, rfl⟩ rfl rfl

/-- **C8.** Within one successful split attempt, the operations happen in
this fixed order: the shard-uid mappings for both children are committed
first, then the left child's memtrie split (with its own fresh
`TrieRecorder`) completes strictly before the right child's begins, then the
accumulated batch is committed, and only after that commit is the
flat-storage resharder's `start_resharding` invoked with the same split
event. -/
theorem split_attempt_operation_order (genv : GateEnv) (env : SplitEnv)
    (shard_uid : ShardUId) (event : ReshardingSplitShardParams)
    (pce ceL ceR : ChunkExtra)
    (hg : gate_passes genv shard_uid event)
    (hfreeze : env.freezeOk = true)
    (hce : env.parentChunkExtra = some pce)
    (hmemL : env.memLoaded event.left_child_shard = true)
    (hmemR : env.memLoaded event.right_child_shard = true)
    (hupdL : env.updateOk RetainMode.Left = true)
    (hupdR : env.updateOk RetainMode.Right = true)
    (hceL : get_child_chunk_extra pce (env.childStateRoot RetainMode.Left)
      RetainMode.Left env.shardIds env.receiptGroups
      (env.bootstrapped event.left_child_shard) event.left_child_shard.shard_id
      env.nextAllShards (env.shardIndex event.left_child_shard) = some ceL)
    (hceR : get_child_chunk_extra pce (env.childStateRoot RetainMode.Right)
      RetainMode.Right env.shardIds env.receiptGroups
      (env.bootstrapped event.right_child_shard) event.right_child_shard.shard_id
      env.nextAllShards (env.shardIndex event.right_child_shard) = some ceR)
    (hcommit : env.commitOk = true)
    (hflat : env.flatStorageOk = true) :
    (start_resharding genv env shard_uid).result = SplitResult.ok
    ∧ (start_resharding genv env shard_uid).trace
      = [TraceEvent.commitMappings (children_shards event) event.parent_shard,
         TraceEvent.freezeMemTries shard_uid (children_shards event),
         TraceEvent.newTrieRecorder event.left_child_shard,
         TraceEvent.retainSplit event.left_child_shard RetainMode.Left,
         TraceEvent.newTrieRecorder event.right_child_shard,
         TraceEvent.retainSplit event.right_child_shard RetainMode.Right,
         TraceEvent.commitBatch,
         TraceEvent.flatStorageStart event genv.next_shard_layout] := by
  have h5 := hg.2.2.2.2
  have hL := process_child_memtrie_ok_shape env pce env.blockHash
    event.left_child_shard RetainMode.Left hmemL hupdL ceL hceL
  have hR := process_child_memtrie_ok_shape env pce env.blockHash
    event.right_child_shard RetainMode.Right hmemR hupdR ceR hceR
  have hpm : process_memtrie_resharding_storage_update env shard_uid event
      = ⟨MemtrieResult.ok
          [WriteOp.chunkExtra env.blockHash event.left_child_shard ceL,
           WriteOp.stateTransitionData env.blockHash
             event.left_child_shard.shard_id (env.childWitness RetainMode.Left),
           WriteOp.chunkExtra env.blockHash event.right_child_shard ceR,
           WriteOp.stateTransitionData env.blockHash
             event.right_child_shard.shard_id (env.childWitness RetainMode.Right),
           WriteOp.trieInsertions event.left_child_shard
             (env.childTrieChanges RetainMode.Left),
           WriteOp.trieInsertions event.right_child_shard
             (env.childTrieChanges RetainMode.Right)],
         [TraceEvent.freezeMemTries shard_uid (children_shards event),
          TraceEvent.newTrieRecorder event.left_child_shard,
          TraceEvent.retainSplit event.left_child_shard RetainMode.Left,
          TraceEvent.newTrieRecorder event.right_child_shard,
          TraceEvent.retainSplit event.right_child_shard RetainMode.Right,
          TraceEvent.commitBatch]⟩ := by
    unfold process_memtrie_resharding_storage_update
    rw [hfreeze, hce]
    simp [get_chunk_extra, hL, hR, hcommit]
  rw [start_resharding_gate_pass genv env shard_uid event hg]
  unfold split_shard
  rw [if_neg (by simp [h5]), hpm]
  constructor
  · simp [hflat]
  · simp [hflat]

/-- The child `ChunkExtra` produced on the healthy concrete run: the parent's
fields with the new state root 0. -/
def healthy_child_extra : ChunkExtra :=
  { state_root := 0
    congestion_info := none
    gas_used := 7
    balance_burnt := 3
    validator_proposals := []
    outgoing_receipts_root := 9 }

/-- Witness for the operation-order theorem on a concrete healthy run. -/
theorem split_attempt_operation_order_witness :
    (start_resharding passing_gate healthy_env parent_uid).result = SplitResult.ok
    ∧ (start_resharding passing_gate healthy_env parent_uid).trace
      = [TraceEvent.commitMappings (children_shards split_event)
           split_event.parent_shard,
         TraceEvent.freezeMemTries parent_uid (children_shards split_event),
         TraceEvent.newTrieRecorder split_event.left_child_shard,
         TraceEvent.retainSplit split_event.left_child_shard RetainMode.Left,
         TraceEvent.newTrieRecorder split_event.right_child_shard,
         TraceEvent.retainSplit split_event.right_child_shard RetainMode.Right,
         TraceEvent.commitBatch,
         TraceEvent.flatStorageStart split_event passing_gate.next_shard_layout] :=
  split_attempt_operation_order passing_gate healthy_env parent_uid split_event
    base_chunk_extra healthy_child_extra healthy_child_extra
    ⟨rfl, by decide, rfl, rfl, rfl⟩ rfl rfl rfl rfl rfl rfl rfl rfl rfl rfl

/-- Witness for the buffered-gas-drain theorem: two destination shards each
holding a queue of gas 500 and size 75 against a parent with buffered gas
1000 and buffered bytes 200. -/
theorem subtract_receipt_groups_drains_buffered_gas_witness :
    ∃ ci2, subtract_receipt_groups [0, 1] (fun _ => some ⟨500, 75⟩)
        ⟨1000, 200, 0, 5⟩ = some ci2
      ∧ ci2.buffered_receipts_gas = 0 :=
  subtract_receipt_groups_drains_buffered_gas [0, 1] (fun _ => some ⟨500, 75⟩)
    ⟨1000, 200, 0, 5⟩ (by decide) (by decide)
    (fun sid _ rg hrg => by
      cases hrg
      norm_num)

/-- Witness for the right-child cross-check theorem: one destination queue
drains the parent's 1000 buffered gas; the bootstrapped info differs only in
`allowed_shard`. -/
theorem get_child_congestion_info_right_returns_bootstrapped_witness :
    get_child_congestion_info RetainMode.Right [0] (fun _ => some ⟨1000, 200⟩)
      ⟨0, 100, 4, 9⟩ ⟨1000, 300, 4, 5⟩ = some ⟨0, 100, 4, 9⟩ :=
  get_child_congestion_info_right_returns_bootstrapped [0]
    (fun _ => some ⟨1000, 200⟩) ⟨0, 100, 4, 9⟩ ⟨1000, 300, 4, 5⟩ ⟨0, 100, 4, 5⟩
    (by decide) rfl ⟨rfl, rfl, rfl⟩

/-- Witness for the missing-queue skip theorem: destination 1 has no queue,
so iterating `[0, 1, 2]` equals iterating `[0, 2]`. -/
theorem subtract_receipt_groups_skips_missing_queue_witness :
    subtract_receipt_groups ([0] ++ 1 :: [2])
        (fun s => if s = 1 then none else some ⟨10, 10⟩) ⟨100, 100, 0, 0⟩
      = subtract_receipt_groups ([0] ++ [2])
        (fun s => if s = 1 then none else some ⟨10, 10⟩) ⟨100, 100, 0, 0⟩ :=
  subtract_receipt_groups_skips_missing_queue [0] [2] 1
    (fun s => if s = 1 then none else some ⟨10, 10⟩) ⟨100, 100, 0, 0⟩ (by decide)

/-- The concrete left-child `ChunkExtra` of the C6 scenario. -/
def c6_left_child_concrete : ChunkExtra :=
  { state_root := 2
    congestion_info := some ⟨1000, 200, 0, 0⟩
    gas_used := 7
    balance_burnt := 3
    validator_proposals := []
    outgoing_receipts_root := 9 }

/-- Witness for the amended left-child congestion theorem on the concrete C6
scenario. -/
theorem left_child_congestion_info_unchanged_witness :
    get_child_congestion_info RetainMode.Left [] (fun _ => none)
      c6_parent_congestion c6_parent_congestion = some c6_parent_congestion
    ∧ ∃ ci2, c6_left_child_concrete.congestion_info = some ci2
      ∧ ci2.buffered_receipts_gas = c6_parent_congestion.buffered_receipts_gas
      ∧ ci2.buffered_receipts_bytes = c6_parent_congestion.buffered_receipts_bytes
      ∧ ci2.delayed_receipts_gas = c6_parent_congestion.delayed_receipts_gas :=
  left_child_congestion_info_unchanged c6_parent_chunk_extra 2 [] (fun _ => none)
    c6_parent_congestion 0 [0, 1] 0 c6_parent_congestion c6_left_child_concrete
    rfl (by decide)

/-- Witness for the frame theorem of the child `ChunkExtra` on a concrete
right-child run. -/
theorem get_child_chunk_extra_frame_witness :
    healthy_child_extra.state_root = 0
    ∧ healthy_child_extra.gas_used = base_chunk_extra.gas_used
    ∧ healthy_child_extra.balance_burnt = base_chunk_extra.balance_burnt
    ∧ healthy_child_extra.validator_proposals = base_chunk_extra.validator_proposals
    ∧ healthy_child_extra.outgoing_receipts_root
      = base_chunk_extra.outgoing_receipts_root :=
  get_child_chunk_extra_frame base_chunk_extra 0 RetainMode.Right []
    (fun _ => none) zero_congestion 1 [0, 1] 1 healthy_child_extra (by decide)
